import Mathlib

/-!
Verification of the EduBot education chatbot (app.py).

Shallow embedding of the pure core of the program: the subject router
(detect_subject), the curriculum catalog (load_curriculum_context), the
prompt builder (create_enhanced_prompt), the response post-processor
(clean_response), the generation driver (generate_response) and the
history-clearing handler (clear_chat).  Strings are modelled by Lean
strings (lists of characters); Python string primitives used by the code
(lower, strip, replace, slicing, substring test) are given explicit
executable models below.
-/

set_option maxRecDepth 4096

namespace EduBot

/-- Terminal sentence punctuation, the set tested by clean_response. -/
def isTerm (c : Char) : Bool := c == '.' || c == '!' || c == '?'

/-- Whitespace removed by Python str.strip (ASCII whitespace). -/
def isPySpace (c : Char) : Bool :=
  c == ' ' || c == '\t' || c == '\n' || c == '\r' || c == '\x0b' || c == '\x0c'

/-- Substring occurrence test: models the Python `in` operator on strings
(pattern occurs contiguously anywhere in the text). -/
def occursB (p : List Char) : List Char → Bool
  | [] => p.isEmpty
  | c :: rest => p.isPrefixOf (c :: rest) || occursB p rest

/-- Models Python str.lower on the ASCII range (the keyword tables are
all ASCII). -/
def pyLower (s : String) : String := ⟨s.data.map Char.toLower⟩

/-- Models Python str.strip with no argument: drop leading and trailing
whitespace. -/
def pyStripList (l : List Char) : List Char :=
  ((l.dropWhile isPySpace).reverse.dropWhile isPySpace).reverse

/-- String wrapper for pyStripList. -/
def pyStrip (s : String) : String := ⟨pyStripList s.data⟩

/-- Models Python re.sub applied with the pattern of clean_response:
`re.sub(r'[^.!?]*$', '', response)` removes the maximal trailing run of
characters that are not in {'.', '!', '?'} (the only positions where the
anchored pattern can match non-trivially are inside that trailing run,
and the leftmost match is the whole run). -/
def trimTrailingList (l : List Char) : List Char :=
  (l.reverse.dropWhile (fun c => !isTerm c)).reverse

/-- Fuel-driven scanner for Python str.replace(old, "") with empty
replacement: scan left to right, and at each position either consume a
(non-overlapping) occurrence of `old` or emit one character.  The fuel is
instantiated with the length of the text, which each step decreases. -/
def pyReplaceAux (old : List Char) : Nat → List Char → List Char
  | _, [] => []
  | 0, l => l
  | Nat.succ fuel, c :: rest =>
    if !old.isEmpty && old.isPrefixOf (c :: rest) then
      pyReplaceAux old fuel ((c :: rest).drop old.length)
    else
      c :: pyReplaceAux old fuel rest

/-- Models generated_text.replace(prompt, "") from generate_response:
Python str.replace removes every non-overlapping occurrence, scanning
left to right.  (For an empty pattern Python returns the text unchanged
when the replacement is empty, which the scanner also does.) -/
def pyReplaceEmpty (s old : String) : String :=
  ⟨pyReplaceAux old.data s.data.length s.data⟩

/-- Keyword table of detect_subject, in Python dict insertion order. -/
def physicsKeywords : List String :=
  ["physics", "force", "energy", "motion", "electricity", "optics",
   "magnetism", "newton", "quantum", "wave", "atom"]

/-- Chemistry keywords of detect_subject. -/
def chemistryKeywords : List String :=
  ["chemistry", "atom", "molecule", "reaction", "organic", "periodic",
   "chemical", "bond", "compound", "element"]

/-- Mathematics keywords of detect_subject. -/
def mathematicsKeywords : List String :=
  ["math", "calculus", "algebra", "trigonometry", "equation", "derivative",
   "integral", "geometry", "probability", "statistics"]

/-- Biology keywords of detect_subject. -/
def biologyKeywords : List String :=
  ["biology", "cell", "dna", "evolution", "respiration", "photosynthesis",
   "organism", "reproduction", "genetics", "plant", "animal"]

/-- Computer science keywords of detect_subject. -/
def computerScienceKeywords : List String :=
  ["programming", "python", "java", "algorithm", "database", "computer",
   "code", "software", "binary", "variable"]

/-- English keywords of detect_subject. -/
def englishKeywords : List String :=
  ["english", "grammar", "literature", "writing", "comprehension", "poem",
   "story", "essay", "tense", "vocabulary"]

/-- The subject_keywords dict of detect_subject, as an ordered
association list (Python dicts iterate in insertion order). -/
def subject_keywords : List (String × List String) :=
  [("physics", physicsKeywords),
   ("chemistry", chemistryKeywords),
   ("mathematics", mathematicsKeywords),
   ("biology", biologyKeywords),
   ("computer science", computerScienceKeywords),
   ("english", englishKeywords)]

/-- The for-loop of detect_subject: return the first subject one of whose
keywords occurs in the lowered question, else fall through. -/
def detectLoop (ql : List Char) : List (String × List String) → String
  | [] => "general"
  | (subj, kws) :: rest =>
    if kws.any (fun k => occursB k.data ql) then subj else detectLoop ql rest

/-- EducationChatbot.detect_subject: lower-case the question and scan the
keyword table in order. -/
def detect_subject (question : String) : String :=
  detectLoop (pyLower question).data subject_keywords

/-- Grade 11 physics topics of load_curriculum_context. -/
def physics11 : List String :=
  ["Physical World", "Units and Measurements", "Motion in Straight Line",
   "Laws of Motion", "Work, Energy and Power", "System of Particles",
   "Gravitation", "Mechanical Properties", "Thermodynamics", "Kinetic Theory",
   "Oscillations", "Waves"]

/-- Grade 12 physics topics of load_curriculum_context. -/
def physics12 : List String :=
  ["Electric Charges and Fields", "Electrostatic Potential", "Current Electricity",
   "Moving Charges and Magnetism", "Magnetism", "Electromagnetic Induction",
   "Alternating Current", "Electromagnetic Waves", "Ray Optics", "Wave Optics",
   "Dual Nature", "Atoms", "Nuclei", "Semiconductors"]

/-- Grade 11 chemistry topics of load_curriculum_context. -/
def chemistry11 : List String :=
  ["Basic Concepts", "Structure of Atom", "Classification", "Chemical Bonding",
   "States of Matter", "Thermodynamics", "Equilibrium", "Redox Reactions",
   "Hydrogen", "s-Block", "p-Block", "Organic Chemistry", "Hydrocarbons",
   "Environmental Chemistry"]

/-- Grade 12 chemistry topics of load_curriculum_context. -/
def chemistry12 : List String :=
  ["Solid State", "Solutions", "Electrochemistry", "Chemical Kinetics",
   "Surface Chemistry", "p-Block", "d and f Block", "Coordination Compounds",
   "Haloalkanes", "Alcohols", "Ethers", "Aldehydes", "Ketones", "Carboxylic Acids",
   "Amines", "Biomolecules", "Polymers", "Chemistry in Everyday Life"]

/-- Grade 11 mathematics topics of load_curriculum_context. -/
def mathematics11 : List String :=
  ["Sets", "Relations and Functions", "Trigonometric Functions",
   "Complex Numbers", "Linear Inequalities", "Permutations", "Combinations",
   "Binomial Theorem", "Sequence and Series", "Straight Lines", "Conic Sections",
   "Introduction to 3D", "Limits and Derivatives", "Mathematical Reasoning",
   "Statistics", "Probability"]

/-- Grade 12 mathematics topics of load_curriculum_context. -/
def mathematics12 : List String :=
  ["Relations and Functions", "Inverse Trigonometric Functions", "Matrices",
   "Determinants", "Continuity and Differentiability", "Application of Derivatives",
   "Integrals", "Application of Integrals", "Differential Equations", "Vector Algebra",
   "Three Dimensional Geometry", "Linear Programming", "Probability"]

/-- Grade 11 biology topics of load_curriculum_context. -/
def biology11 : List String :=
  ["The Living World", "Biological Classification", "Plant Kingdom",
   "Animal Kingdom", "Morphology of Flowering Plants", "Anatomy of Flowering Plants",
   "Structural Organisation in Animals", "Cell-The Unit of Life", "Biomolecules",
   "Cell Cycle and Cell Division", "Transport in Plants", "Mineral Nutrition",
   "Photosynthesis in Higher Plants", "Respiration in Plants", "Plant Growth and Development",
   "Digestion and Absorption", "Breathing and Exchange of Gases", "Body Fluids and Circulation",
   "Excretory Products and their Elimination", "Locomotion and Movement",
   "Neural Control and Coordination", "Chemical Coordination and Integration"]

/-- Grade 12 biology topics of load_curriculum_context. -/
def biology12 : List String :=
  ["Reproduction in Organisms", "Sexual Reproduction in Flowering Plants",
   "Human Reproduction", "Reproductive Health", "Principles of Inheritance and Variation",
   "Molecular Basis of Inheritance", "Evolution", "Human Health and Disease",
   "Strategies for Enhancement in Food Production", "Microbes in Human Welfare",
   "Biotechnology: Principles and Processes", "Biotechnology and its Applications",
   "Organisms and Populations", "Ecosystem", "Biodiversity and Conservation",
   "Environmental Issues"]

/-- Grade 11 computer science topics of load_curriculum_context. -/
def computerScience11 : List String :=
  ["Computer Systems and Organisation", "Computational Thinking and Programming",
   "Society, Law and Ethics", "Python Programming", "Data Handling",
   "Flow of Control", "Functions", "Strings", "Lists, Tuples and Dictionaries",
   "Computer Networks", "Database Concepts", "SQL"]

/-- Grade 12 computer science topics of load_curriculum_context. -/
def computerScience12 : List String :=
  ["Python Revision", "Advanced Programming with Python", "File Handling",
   "Data Structures", "Computer Networks", "Database Management", "SQL Queries",
   "Interface Python with SQL", "Society, Law and Ethics"]

/-- Grade 11 english topics of load_curriculum_context. -/
def english11 : List String :=
  ["Reading Comprehension", "Writing Skills", "Grammar", "Literature",
   "Poetry", "Prose", "Drama", "Communication Skills"]

/-- Grade 12 english topics of load_curriculum_context. -/
def english12 : List String :=
  ["Advanced Reading", "Professional Writing", "Advanced Grammar",
   "Flamingo (Prose)", "Flamingo (Poetry)", "Vistas", "Novel", "Report Writing"]

/-- EducationChatbot.load_curriculum_context: subject name mapped to its
pair of (grade 11 topics, grade 12 topics), in dict insertion order. -/
def curriculum_context : List (String × (List String × List String)) :=
  [("physics", (physics11, physics12)),
   ("chemistry", (chemistry11, chemistry12)),
   ("mathematics", (mathematics11, mathematics12)),
   ("biology", (biology11, biology12)),
   ("computer science", (computerScience11, computerScience12)),
   ("english", (english11, english12))]

/-- Fixed template text that opens every prompt of create_enhanced_prompt. -/
def promptHeader : String :=
  "You are a friendly tutor for Indian 11th and 12th standard students. Answer the question clearly and simply.\n\n"

/-- Fixed template text that closes every prompt of create_enhanced_prompt. -/
def promptTail : String :=
  "\n\nPlease provide:\n- Clear explanation in simple English\n- Step-by-step reasoning if needed\n- Examples from daily life when possible\n- Key points to remember\n\nAnswer:"

/-- The curriculum_info block of create_enhanced_prompt: present exactly
when the subject is a key of the catalog, quoting the first three topics
of each grade joined by ", " (the slice [:3] and ', '.join of the code). -/
def curriculum_info (subject : String) : String :=
  match curriculum_context.find? (fun p => p.1 == subject) with
  | some entry =>
    "\nThis is for Indian 11th/12th standard " ++ subject ++
    " curriculum.\nKey topics include: " ++
    String.intercalate (", ") (entry.2.1.take 3) ++ " in 11th and " ++
    String.intercalate (", ") (entry.2.2.take 3) ++ " in 12th.\n\n"
  | none => ""

/-- EducationChatbot.create_enhanced_prompt: the f-string template with
the curriculum block and the raw question interpolated. -/
def create_enhanced_prompt (question subject : String) : String :=
  promptHeader ++ curriculum_info subject ++ "\nQuestion: " ++ question ++ promptTail

/-- EducationChatbot.clean_response: trim the trailing unterminated run,
strip whitespace, and append a period when the text is non-empty and its
last character is not terminal punctuation. -/
def clean_response (response : String) : String :=
  let r := pyStripList (trimTrailingList response.data)
  match r.getLast? with
  | some c => if isTerm c then ⟨r⟩ else ⟨r ++ ['.']⟩
  | none => ⟨r⟩

/-- One entry of EducationChatbot.conversation_history. -/
structure ConversationRecord where
  question : String
  response : String
  subject : String
deriving DecidableEq

/-- The fixed message returned when the pipeline is absent. -/
def notReadyMessage : String :=
  "I\x27m still getting ready to help you. Please wait a moment and try again."

/-- The fixed apology prefix of the except-branch of generate_response. -/
def apologyPrefix : String :=
  "I apologize, but I\x27m having trouble generating a response right now. Please try again with a different question. Error: "

/-- Prompt-echo removal plus strip, lines 185-188 of generate_response:
answer = generated_text.replace(prompt, "").strip(). -/
def stripPromptEcho (prompt generated : String) : String :=
  pyStrip (pyReplaceEmpty generated prompt)

/-- EducationChatbot.generate_response.  The external pipeline is
modelled as an optional function from the prompt to either the generated
text (the full continuation string the code reads out of the pipeline
result) or the message of a raised exception; the fixed generation
parameters are out of scope.  The mutable conversation_history is passed
and returned explicitly. -/
def generate_response (pipe : Option (String → Except String String))
    (history : List ConversationRecord) (question : String) :
    String × List ConversationRecord :=
  match pipe with
  | none => (notReadyMessage, history)
  | some p =>
    let subject := detect_subject question
    let prompt := create_enhanced_prompt question subject
    match p prompt with
    | Except.ok generated_text =>
      let answer := clean_response (stripPromptEcho prompt generated_text)
      (answer, history ++ [⟨question, answer, subject⟩])
    | Except.error e =>
      (apologyPrefix ++ ⟨e.data.take 100⟩, history)

/-- The clear_chat handler: conversation_history.clear() followed by
returning None (for the chat widget) and "" (for the textbox). -/
def clear_chat (_history : List ConversationRecord) :
    List ConversationRecord × Option (List (String × String)) × String :=
  ([], none, "")

/-- Modelled from the spec routing description (section 4.1), for the
refinement claim C4: lower-case the input, keep the subjects one of whose
keyword substrings occurs in it, and take the first in table order,
defaulting to "general". -/
def routerSpec (q : String) : String :=
  ((subject_keywords.filter
      (fun p => p.2.any (fun k => occursB k.data (pyLower q).data))).map Prod.fst).headD ("general")

theorem isPrefixOf_self (p : List Char) : p.isPrefixOf p = true := by
  rw [List.isPrefixOf_iff_prefix]

theorem isPrefixOf_append_self (p q : List Char) : p.isPrefixOf (p ++ q) = true := by
  rw [List.isPrefixOf_iff_prefix]
  exact List.prefix_append p q

theorem isPrefixOf_append_left (p l r : List Char) (h : p.isPrefixOf l = true) :
    p.isPrefixOf (l ++ r) = true := by
  rw [List.isPrefixOf_iff_prefix] at h ⊢
  exact h.trans (List.prefix_append l r)

theorem occursB_nil (l : List Char) : occursB ([]) l = true := by
  cases l with
  | nil => rfl
  | cons c rest => simp [occursB, List.isPrefixOf]

theorem occursB_append_right (p r l : List Char) (h : occursB p r = true) :
    occursB p (l ++ r) = true := by
  induction l with
  | nil => simpa using h
  | cons c l ih =>
    simp only [List.cons_append, occursB, Bool.or_eq_true]
    exact Or.inr ih

theorem occursB_append_left (p l r : List Char) (h : occursB p l = true) :
    occursB p (l ++ r) = true := by
  induction l with
  | nil =>
    simp only [occursB, List.isEmpty_iff] at h
    subst h
    exact occursB_nil r
  | cons c l ih =>
    simp only [occursB, Bool.or_eq_true] at h
    rcases h with h | h
    · simp only [List.cons_append, occursB, Bool.or_eq_true]
      exact Or.inl (isPrefixOf_append_left _ _ _ h)
    · simp only [List.cons_append, occursB, Bool.or_eq_true]
      exact Or.inr (ih h)

theorem occursB_append_self (p y : List Char) : occursB p (p ++ y) = true := by
  cases p with
  | nil => simpa using occursB_nil y
  | cons c rest =>
    simp only [List.cons_append, occursB, Bool.or_eq_true]
    exact Or.inl (isPrefixOf_append_self _ _)

theorem detectLoop_eq_filter (ql : List Char) (l : List (String × List String)) :
    detectLoop ql l
      = ((l.filter (fun p => p.2.any (fun k => occursB k.data ql))).map Prod.fst).headD ("general") := by
  induction l with
  | nil => rfl
  | cons hd rest ih =>
    obtain ⟨subj, kws⟩ := hd
    by_cases h : kws.any (fun k => occursB k.data ql) = true
    · simp [detectLoop, h]
    · simp only [Bool.not_eq_true] at h
      simp [detectLoop, h, ih]

theorem detectLoop_mem (ql : List Char) (l : List (String × List String)) :
    detectLoop ql l ∈ l.map Prod.fst ++ ["general"] := by
  induction l with
  | nil => simp [detectLoop]
  | cons hd rest ih =>
    obtain ⟨subj, kws⟩ := hd
    by_cases h : kws.any (fun k => occursB k.data ql) = true
    · simp [detectLoop, h]
    · simp only [Bool.not_eq_true] at h
      simp only [detectLoop, h, Bool.false_eq_true, if_false, List.map_cons,
        List.cons_append, List.mem_cons]
      exact Or.inr ih

/-- C4: for every non-empty question the router lower-cases the input,
scans the keyword table in its fixed order, returns the first subject one
of whose keyword substrings occurs in the lowered input (short-circuit,
no scoring), defaults to "general", and always produces one of the seven
labels. -/
theorem C4_router_first_match (q : String) (_hq : q ≠ "") :
    detect_subject q = routerSpec q ∧
    detect_subject q ∈ (["physics", "chemistry", "mathematics", "biology",
      "computer science", "english", "general"] : List String) := by
  constructor
  · simp only [detect_subject, routerSpec]
    exact detectLoop_eq_filter _ _
  · have h := detectLoop_mem ((pyLower q).data) subject_keywords
    simpa [detect_subject, subject_keywords] using h

theorem C4_router_first_match_witness :
    detect_subject ("What is photosynthesis?") = routerSpec ("What is photosynthesis?") ∧
    detect_subject ("What is photosynthesis?") ∈ (["physics", "chemistry", "mathematics",
      "biology", "computer science", "english", "general"] : List String) :=
  C4_router_first_match ("What is photosynthesis?") (by decide)

/-- C1 counterexample: the question "the force on dna" contains the
biology keyword "dna", yet detect_subject returns "physics" (the physics
keyword "force" matches first in table order), refuting the claim that
every question containing a biology keyword is routed to "biology". -/
theorem C1_counterexample :
    occursB (("dna").data) ((pyLower ("the force on dna")).data) = true ∧
    detect_subject ("the force on dna") = "physics" := by
  constructor <;> decide

/-- C1 (amended): a question one of whose biology keywords occurs in the
lowered input is routed to "biology" provided no keyword of an earlier
table entry (physics, chemistry, mathematics) occurs; a question in which
no configured keyword of any subject occurs is routed to "general". -/
theorem C1_biology_and_general_routing (q : String) :
    (biologyKeywords.any (fun k => occursB k.data (pyLower q).data) = true →
     physicsKeywords.any (fun k => occursB k.data (pyLower q).data) = false →
     chemistryKeywords.any (fun k => occursB k.data (pyLower q).data) = false →
     mathematicsKeywords.any (fun k => occursB k.data (pyLower q).data) = false →
     detect_subject q = "biology") ∧
    ((∀ entry ∈ subject_keywords, entry.2.any (fun k => occursB k.data (pyLower q).data) = false) →
     detect_subject q = "general") := by
  constructor
  · intro hb hp hc hm
    simp [detect_subject, subject_keywords, detectLoop, hb, hp, hc, hm]
  · intro h
    have hp : physicsKeywords.any (fun k => occursB k.data (pyLower q).data) = false :=
      h ("physics", physicsKeywords) (by simp [subject_keywords])
    have hc : chemistryKeywords.any (fun k => occursB k.data (pyLower q).data) = false :=
      h ("chemistry", chemistryKeywords) (by simp [subject_keywords])
    have hm : mathematicsKeywords.any (fun k => occursB k.data (pyLower q).data) = false :=
      h ("mathematics", mathematicsKeywords) (by simp [subject_keywords])
    have hb : biologyKeywords.any (fun k => occursB k.data (pyLower q).data) = false :=
      h ("biology", biologyKeywords) (by simp [subject_keywords])
    have hcs : computerScienceKeywords.any (fun k => occursB k.data (pyLower q).data) = false :=
      h ("computer science", computerScienceKeywords) (by simp [subject_keywords])
    have he : englishKeywords.any (fun k => occursB k.data (pyLower q).data) = false :=
      h ("english", englishKeywords) (by simp [subject_keywords])
    simp [detect_subject, subject_keywords, detectLoop, hp, hc, hm, hb, hcs, he]

theorem C1_biology_and_general_routing_witness :
    detect_subject ("explain dna") = "biology" ∧
    detect_subject ("hello friend") = "general" :=
  ⟨(C1_biology_and_general_routing ("explain dna")).1 (by decide) (by decide) (by decide) (by decide),
   (C1_biology_and_general_routing ("hello friend")).2 (by decide)⟩

/-- C6: for every question, the prompt built for the label "physics"
contains the first three grade-11 physics topics as literal substrings,
and contains the question text verbatim. -/
theorem C6_physics_prompt_topics (q : String) :
    occursB (("Physical World").data) ((create_enhanced_prompt q ("physics")).data) = true ∧
    occursB (("Units and Measurements").data) ((create_enhanced_prompt q ("physics")).data) = true ∧
    occursB (("Motion in Straight Line").data) ((create_enhanced_prompt q ("physics")).data) = true ∧
    occursB (q.data) ((create_enhanced_prompt q ("physics")).data) = true := by
  have h1 : (create_enhanced_prompt q ("physics")).data
      = (promptHeader ++ curriculum_info ("physics") ++ "\nQuestion: ").data
        ++ (q.data ++ promptTail.data) := by
    simp [create_enhanced_prompt, String.data_append, List.append_assoc]
  rw [h1]
  refine ⟨?_, ?_, ?_, ?_⟩
  · exact occursB_append_left _ _ _ (by decide)
  · exact occursB_append_left _ _ _ (by decide)
  · exact occursB_append_left _ _ _ (by decide)
  · exact occursB_append_right _ _ _ (occursB_append_self _ _)

/-- C8: for every subject label the prompt interpolates the question text
verbatim between fixed strings with no escaping, and for a label that is
not a key of the curriculum catalog (such as "general") the curriculum
preamble is omitted entirely, leaving only the fixed template around the
question. -/
theorem C8_prompt_verbatim_no_preamble (subject : String) :
    (∃ pre post : String, ∀ q : String, create_enhanced_prompt q subject = pre ++ q ++ post) ∧
    (subject ∉ curriculum_context.map Prod.fst →
     ∀ q : String, create_enhanced_prompt q subject
        = (promptHeader ++ "\nQuestion: ") ++ q ++ promptTail) := by
  constructor
  · exact ⟨promptHeader ++ curriculum_info subject ++ "\nQuestion: ", promptTail,
      fun q => rfl⟩
  · intro hmem q
    have hfind : curriculum_context.find? (fun p => p.1 == subject) = none := by
      rw [List.find?_eq_none]
      intro x hx
      simp only [Bool.not_eq_true, beq_eq_false_iff_ne, ne_eq]
      intro hxe
      exact hmem (List.mem_map.mpr ⟨x, hx, hxe⟩)
    have hinfo : curriculum_info subject = "" := by
      unfold curriculum_info
      rw [hfind]
    show promptHeader ++ curriculum_info subject ++ "\nQuestion: " ++ q ++ promptTail = _
    rw [hinfo, String.append_empty]

theorem C8_prompt_verbatim_no_preamble_witness :
    create_enhanced_prompt ("What is gravity?") ("general")
      = (promptHeader ++ "\nQuestion: ") ++ ("What is gravity?") ++ promptTail :=
  (C8_prompt_verbatim_no_preamble ("general")).2 (by decide) ("What is gravity?")

theorem isTerm_not_space (c : Char) (h : isTerm c = true) : isPySpace c = false := by
  simp only [isTerm, Bool.or_eq_true, beq_iff_eq] at h
  rcases h with (h | h) | h <;> subst h <;> decide

theorem dropWhile_head_false (p : Char → Bool) (l : List Char) (h : Char) (t : List Char)
    (hd : l.dropWhile p = h :: t) : p h = false := by
  induction l with
  | nil => simp [List.dropWhile] at hd
  | cons a l ih =>
    rw [List.dropWhile_cons] at hd
    by_cases hp : p a = true
    · rw [if_pos hp] at hd
      exact ih hd
    · rw [if_neg hp] at hd
      injection hd with h1 h2
      subst h1
      simpa using hp

theorem dropWhile_append_all (p : Char → Bool) (a b : List Char)
    (h : ∀ c ∈ a, p c = true) : (a ++ b).dropWhile p = b.dropWhile p := by
  induction a with
  | nil => rfl
  | cons x a ih =>
    have hx : p x = true := h x (by simp)
    simp only [List.cons_append, List.dropWhile_cons, hx, if_true]
    exact ih (fun c hc => h c (by simp [hc]))

theorem dropWhile_append_singleton (p : Char → Bool) (t : List Char) (c : Char)
    (hc : p c = false) : ∃ t1, (t ++ [c]).dropWhile p = t1 ++ [c] := by
  induction t with
  | nil =>
    refine ⟨[], ?_⟩
    simp [List.dropWhile_cons, hc]
  | cons a t ih =>
    by_cases hp : p a = true
    · obtain ⟨t1, h1⟩ := ih
      refine ⟨t1, ?_⟩
      simp [List.dropWhile_cons, hp, h1]
    · refine ⟨a :: t, ?_⟩
      simp [List.dropWhile_cons, hp]

theorem pyStripList_concat (t : List Char) (c : Char) (hc : isPySpace c = false) :
    ∃ t1, pyStripList (t ++ [c]) = t1 ++ [c] := by
  obtain ⟨t1, h1⟩ := dropWhile_append_singleton isPySpace t c hc
  refine ⟨t1, ?_⟩
  unfold pyStripList
  rw [h1, List.reverse_append]
  simp only [List.reverse_cons, List.reverse_nil, List.nil_append, List.singleton_append]
  rw [List.dropWhile_cons, if_neg (by simp [hc])]
  simp

theorem trimTrailingList_cases (l : List Char) :
    trimTrailingList l = [] ∨
    ∃ t c, trimTrailingList l = t ++ [c] ∧ isTerm c = true := by
  unfold trimTrailingList
  cases hd : l.reverse.dropWhile (fun c => !isTerm c) with
  | nil => exact Or.inl rfl
  | cons h t =>
    right
    have hh : (!isTerm h) = false := dropWhile_head_false _ _ _ _ hd
    refine ⟨t.reverse, h, ?_, by simpa using hh⟩
    rw [List.reverse_cons]

theorem clean_response_eq (s : String) :
    clean_response s = ⟨pyStripList (trimTrailingList s.data)⟩ ∧
    (clean_response s = "" ∨
     ∃ t c, (clean_response s).data = t ++ [c] ∧ isTerm c = true) := by
  rcases trimTrailingList_cases s.data with h | ⟨t, c, h, hterm⟩
  · have hr : pyStripList (trimTrailingList s.data) = [] := by rw [h]; rfl
    constructor
    · simp [clean_response, hr]
    · left
      simp [clean_response, hr]
  · obtain ⟨t1, h1⟩ := pyStripList_concat t c (isTerm_not_space c hterm)
    have hr : pyStripList (trimTrailingList s.data) = t1 ++ [c] := by rw [h, h1]
    have hlast : (pyStripList (trimTrailingList s.data)).getLast? = some c := by
      rw [hr]
      exact List.getLast?_concat _
    constructor
    · simp [clean_response, hlast, hterm]
    · right
      refine ⟨t1, c, ?_, hterm⟩
      simp [clean_response, hlast, hterm, hr]

/-- C2 counterexample: the raw text "this is correct answer" (final words
with no trailing punctuation) is wholly removed by the trailing-trim
step, so clean_response returns the empty string, which does not end with
"answer." as the claim asserts. -/
theorem C2_counterexample :
    clean_response ("this is correct answer") = "" ∧
    (("answer.").data.isSuffixOf ((clean_response ("this is correct answer")).data)) = false := by
  constructor <;> decide

/-- C2 (amended): clean_response appends a period only when the text
remaining after the trailing-trim step is non-empty and lacks terminal
punctuation, and that condition never holds: the output always equals the
stripped trim result, whose last character (when the result is non-empty)
is already one of the terminal punctuation marks, so no period is ever
appended; in particular raw text whose final words are "this is correct
answer" with no trailing punctuation has that whole fragment trimmed away
rather than receiving a period. -/
theorem C2_no_period_appended (s : String) :
    clean_response s = ⟨pyStripList (trimTrailingList s.data)⟩ ∧
    (∀ t c, pyStripList (trimTrailingList s.data) = t ++ [c] → isTerm c = true) := by
  obtain ⟨h1, h2⟩ := clean_response_eq s
  refine ⟨h1, ?_⟩
  intro t c h
  rcases h2 with h2 | ⟨t', c', hd, hterm⟩
  · rw [h1] at h2
    have hdata : pyStripList (trimTrailingList s.data) = [] := congrArg String.data h2
    rw [h] at hdata
    simp at hdata
  · rw [h1] at hd
    have hd' : pyStripList (trimTrailingList s.data) = t' ++ [c'] := hd
    rw [h] at hd'
    have hcc : c = c' := by
      have := congrArg List.getLast? hd'
      simpa [List.getLast?_concat] using this
    rw [hcc]
    exact hterm

theorem C2_no_period_appended_witness :
    clean_response ("Good. extra") = ⟨pyStripList (trimTrailingList (("Good. extra")).data)⟩ ∧
    isTerm '.' = true :=
  ⟨(C2_no_period_appended ("Good. extra")).1,
   (C2_no_period_appended ("Good. extra")).2 (("Good").data) '.' (by decide)⟩

/-- C5: the trailing-trim step removes any trailing run of characters
containing no terminal punctuation, so the output of clean_response is
either empty or ends in one of the three terminal marks, and an input
with no terminal punctuation anywhere is reduced to the empty string. -/
theorem C5_trim_and_terminal (s : String) :
    (∀ t : String, (∀ c ∈ t.data, isTerm c = false) →
       trimTrailingList (s.data ++ t.data) = trimTrailingList s.data) ∧
    (clean_response s = "" ∨
     ∃ t c, (clean_response s).data = t ++ [c] ∧ isTerm c = true) ∧
    ((∀ c ∈ s.data, isTerm c = false) → clean_response s = "") := by
  refine ⟨?_, (clean_response_eq s).2, ?_⟩
  · intro t ht
    unfold trimTrailingList
    rw [List.reverse_append]
    rw [dropWhile_append_all _ _ _ (by intro c hc; simp [ht c (by simpa using hc)])]
  · intro h
    have htrim : trimTrailingList s.data = [] := by
      unfold trimTrailingList
      rw [List.dropWhile_eq_nil_iff.mpr (by intro c hc; simp [h c (by simpa using hc)])]
      rfl
    rw [(clean_response_eq s).1, htrim]
    rfl

theorem C5_trim_and_terminal_witness :
    trimTrailingList ((("Done.")).data ++ ((" and so")).data) = trimTrailingList ((("Done.")).data) ∧
    clean_response ("and so") = "" :=
  ⟨(C5_trim_and_terminal ("Done.")).1 (" and so") (by decide),
   (C5_trim_and_terminal ("and so")).2.2 (by decide)⟩

theorem pyReplaceAux_tail_occurrence (p lead : List Char) :
    ∀ fuel : Nat, p ≠ [] → (∀ c ∈ lead, p.head? ≠ some c) →
    (lead ++ p).length ≤ fuel →
    pyReplaceAux p fuel (lead ++ p) = lead := by
  induction lead with
  | nil =>
    intro fuel hp hhead hfuel
    obtain ⟨y, pt, rfl⟩ : ∃ y pt, p = y :: pt := by
      cases p with
      | nil => exact absurd rfl hp
      | cons y pt => exact ⟨y, pt, rfl⟩
    simp only [List.nil_append] at hfuel ⊢
    cases fuel with
    | zero => simp at hfuel
    | succ f =>
      show pyReplaceAux (y :: pt) (f + 1) (y :: pt) = []
      simp only [pyReplaceAux, List.isEmpty_cons, Bool.not_false, isPrefixOf_self,
        Bool.and_self, if_true, List.drop_length]
  | cons a lead ih =>
    intro fuel hp hhead hfuel
    cases fuel with
    | zero => simp at hfuel
    | succ f =>
      have hne : p.isPrefixOf (a :: (lead ++ p)) = false := by
        cases p with
        | nil => exact absurd rfl hp
        | cons y pt =>
          have hy : (y == a) = false := by
            rw [beq_eq_false_iff_ne]
            intro hya
            subst hya
            exact hhead y (by simp) rfl
          simp [List.isPrefixOf, hy]
      show pyReplaceAux p (f + 1) (a :: (lead ++ p)) = a :: lead
      simp only [pyReplaceAux, hne, Bool.and_false, Bool.false_eq_true, if_false]
      rw [ih f hp (fun c hc => hhead c (by simp [hc]))
        (by simpa using Nat.le_of_succ_le_succ hfuel)]

theorem prompt_head_char (q subject : String) :
    ∃ tl, (create_enhanced_prompt q subject).data = 'Y' :: tl := by
  have h : (create_enhanced_prompt q subject).data
      = promptHeader.data
        ++ (curriculum_info subject ++ "\nQuestion: " ++ q ++ promptTail).data := by
    simp [create_enhanced_prompt, String.data_append, List.append_assoc]
  rw [h]
  exact ⟨_, rfl⟩

theorem stripPromptEcho_trailing_eq (q subject lead : String)
    (hlead : ∀ c ∈ lead.data, c ≠ 'Y') :
    stripPromptEcho (create_enhanced_prompt q subject)
      (lead ++ create_enhanced_prompt q subject) = pyStrip lead := by
  obtain ⟨tl, htl⟩ := prompt_head_char q subject
  unfold stripPromptEcho pyReplaceEmpty
  have hdata : (lead ++ create_enhanced_prompt q subject).data
      = lead.data ++ (create_enhanced_prompt q subject).data := String.data_append _ _
  rw [hdata, htl]
  rw [pyReplaceAux_tail_occurrence ('Y' :: tl) lead.data _ (by simp)
    (by intro c hc hsome; exact hlead c hc (by injection hsome with h1; rw [h1]))
    (le_refl _)]

/-- C3 counterexample: for the concrete prompt built for question "hi"
(label "general"), a generator output consisting of an answer sentence
followed by a verbatim copy of the prompt (so the prompt does not appear
at the start) has that copy removed by the post-processing step, refuting
the claim that only a leading occurrence is removed and text identical to
the prompt elsewhere is kept. -/
theorem C3_counterexample :
    stripPromptEcho (create_enhanced_prompt ("hi") ("general"))
      (("Answer one. ") ++ create_enhanced_prompt ("hi") ("general")) = "Answer one." ∧
    occursB ((create_enhanced_prompt ("hi") ("general")).data)
      ((stripPromptEcho (create_enhanced_prompt ("hi") ("general"))
        (("Answer one. ") ++ create_enhanced_prompt ("hi") ("general"))).data) = false := by
  have hmain := stripPromptEcho_trailing_eq ("hi") ("general") ("Answer one. ") (by decide)
  have hs : pyStrip ("Answer one. ") = "Answer one." := by decide
  rw [hs] at hmain
  refine ⟨hmain, ?_⟩
  rw [hmain]
  decide

/-- C3 (amended): the post-processing step maps the generator output
through Python str.replace, which removes every non-overlapping verbatim
occurrence of the injected prompt anywhere in the output (followed by a
whitespace strip), not only a leading occurrence; in particular a copy of
the prompt at the end of the output, preceded by any text not containing
the prompt's first character, is removed and only the stripped leading
text remains. -/
theorem C3_prompt_removed_anywhere (q subject lead : String)
    (hlead : ∀ c ∈ lead.data, c ≠ 'Y') :
    stripPromptEcho (create_enhanced_prompt q subject)
      (lead ++ create_enhanced_prompt q subject) = pyStrip lead :=
  stripPromptEcho_trailing_eq q subject lead hlead

theorem C3_prompt_removed_anywhere_witness :
    stripPromptEcho (create_enhanced_prompt ("hi") ("physics"))
      (("First sentence. ") ++ create_enhanced_prompt ("hi") ("physics"))
      = pyStrip ("First sentence. ") :=
  C3_prompt_removed_anywhere ("hi") ("physics") ("First sentence. ") (by decide)

/-- C7: generate_response is total and handles both failure kinds: with
no pipeline it returns the fixed not-ready message for every request, and
when the generation call raises, the result is the fixed apology prefix
followed by the error text truncated to at most 100 characters. -/
theorem C7_failures_handled (history : List ConversationRecord) (q : String) :
    (generate_response none history q).1 = notReadyMessage ∧
    (∀ p e, p (create_enhanced_prompt q (detect_subject q)) = Except.error e →
      (generate_response (some p) history q).1 = apologyPrefix ++ ⟨e.data.take 100⟩ ∧
      (e.data.take 100).length ≤ 100) := by
  refine ⟨rfl, ?_⟩
  intro p e h
  constructor
  · simp [generate_response, h]
  · rw [List.length_take]
    exact min_le_left _ _

theorem C7_failures_handled_witness :
    (generate_response none [] ("hi")).1 = notReadyMessage ∧
    (generate_response (some (fun _ => Except.error ("boom"))) [] ("hi")).1
      = apologyPrefix ++ ⟨(("boom")).data.take 100⟩ :=
  ⟨(C7_failures_handled [] ("hi")).1,
   ((C7_failures_handled [] ("hi")).2 (fun _ => Except.error ("boom")) ("boom") rfl).1⟩

/-- C9: clear_chat empties the conversation log, and the answer produced
by generate_response does not depend on the conversation history: the
same pipeline and question give the same answer under any two histories. -/
theorem C9_clear_and_no_history_dependence (h h1 h2 : List ConversationRecord)
    (pipe : Option (String → Except String String)) (q : String) :
    (clear_chat h).1 = [] ∧
    (generate_response pipe h1 q).1 = (generate_response pipe h2 q).1 := by
  refine ⟨rfl, ?_⟩
  cases pipe with
  | none => rfl
  | some p =>
    simp only [generate_response]
    cases p (create_enhanced_prompt q (detect_subject q)) <;> rfl

/-- C10: the conversation history is left unchanged when the pipeline is
absent or the generation call raises, and on success exactly one record
containing the question, the cleaned answer and the detected subject is
appended. -/
theorem C10_history_append_discipline (history : List ConversationRecord) (q : String) :
    (generate_response none history q).2 = history ∧
    (∀ p e, p (create_enhanced_prompt q (detect_subject q)) = Except.error e →
      (generate_response (some p) history q).2 = history) ∧
    (∀ p g, p (create_enhanced_prompt q (detect_subject q)) = Except.ok g →
      (generate_response (some p) history q).2
        = history ++ [⟨q, (generate_response (some p) history q).1, detect_subject q⟩]) := by
  refine ⟨rfl, ?_, ?_⟩
  · intro p e h
    simp [generate_response, h]
  · intro p g h
    simp [generate_response, h]

theorem C10_history_append_discipline_witness :
    (generate_response (some (fun _ => Except.error ("x"))) [] ("hi")).2 = [] ∧
    (generate_response (some (fun _ => Except.ok ("All good."))) [] ("hi")).2
      = [] ++ [⟨("hi"),
        (generate_response (some (fun _ => Except.ok ("All good."))) [] ("hi")).1,
        detect_subject ("hi")⟩] :=
  ⟨(C10_history_append_discipline [] ("hi")).2.1 (fun _ => Except.error ("x")) ("x") rfl,
   (C10_history_append_discipline [] ("hi")).2.2 (fun _ => Except.ok ("All good.")) ("All good.") rfl⟩

end EduBot

